import Mathlib

/-!
Verification development for the email-checker service
(`EmailCheckerService`, NestJS/TypeScript).

The TypeScript source is shallowly embedded: JavaScript strings are
modelled by `String` / `List Char`, `email.split('@')` by `splitOnChar`,
thrown exceptions by `Except`, the callback-driven SMTP socket session by
a recursive loop over the scripted list of server response lines, and the
external collaborators (DNS resolver, Mongo persistence, the disposable
blacklist JSON data file) by explicit parameters collected in `Env`.
-/

namespace EmailChecker

/-! Section: JavaScript string primitives -/

/-- Model of the JavaScript `String.prototype.split` with a one-character
separator: `"a@b@c".split('@') = ["a","b","c"]`, `"x".split('@') = ["x"]`.
The result is always non-empty. -/
def splitOnChar (sep : Char) : List Char → List (List Char)
  | [] => [[]]
  | c :: rest =>
    if c = sep then [] :: splitOnChar sep rest
    else
      match splitOnChar sep rest with
      | [] => [[c]]
      | h :: t => (c :: h) :: t

/-- Model of `email.split('@')[0]` (always defined in JavaScript). -/
def localPartOf (email : String) : List Char :=
  (splitOnChar '@' email.data).headD []

/-- Model of `email.split('@')[1]`: `none` models the JavaScript value
`undefined`, returned when the address has no `'@'`. -/
def domainOf (email : String) : Option (List Char) :=
  (splitOnChar '@' email.data)[1]?

/-- Model of `String.prototype.toLowerCase` on basic latin text, applied
characterwise. -/
def toLowerChars (l : List Char) : List Char :=
  l.map Char.toLower

/-- Decidable substring containment on character lists: model of the
JavaScript `String.prototype.includes`. -/
def containsSeq (pat : List Char) : List Char → Bool
  | [] => pat.isPrefixOf []
  | c :: rest => pat.isPrefixOf (c :: rest) || containsSeq pat rest

/-- Substring containment lifted to `String`, the model of
`s.includes(pat)`. -/
def jsIncludes (s pat : String) : Bool :=
  containsSeq pat.data s.data

/-- Model of `s.startsWith(pat)` on JavaScript strings. -/
def jsStartsWith (s pat : String) : Bool :=
  pat.data.isPrefixOf s.data

/-! Section: domain classifier (pure functions of `EmailCheckerService`) -/

/-- The `freeEmailProviders` list of the service, verbatim. -/
def freeEmailProviders : List String :=
  ["gmail.com", "yahoo.com", "outlook.com", "hotmail.com",
   "icloud.com", "mail.com", "aol.com", "zoho.com"]

/-- Embedding of `checkFreeOrPaid`.  The source reads
`email.split('@')[1].toLowerCase()`; on an address without `'@'` the
index expression is `undefined` and `.toLowerCase()` throws a
`TypeError`, modelled as `Except.error`. -/
def checkFreeOrPaid (email : String) : Except String String :=
  match domainOf email with
  | none => .error "TypeError: Cannot read properties of undefined"
  | some d =>
    let domain := toLowerChars d
    if freeEmailProviders.any (fun p => domain = p.data) then .ok "Free"
    else .ok "Paid"

/-- Embedding of `isBlacklisted`.  The blacklist itself is the external
JSON data file `../lib/blacklist.json` (an array of domain strings), so
it is passed as a parameter.  On an address without `'@'` the domain is
`undefined` and `blacklist.includes(undefined)` is `false` on an array
of strings. -/
def isBlacklisted (blacklist : List String) (email : String) : Bool :=
  match domainOf email with
  | none => false
  | some d => blacklist.any (fun b => b.data = d)

/-- Boundary test applied by `isRoleEmail` to one keyword, verbatim from
the eight-way disjunction in the source. -/
def boundaryMatch (localPart k : List Char) : Bool :=
  localPart = k ||
  (k ++ ['.']).isPrefixOf localPart ||
  ('.' :: k).isSuffixOf localPart ||
  containsSeq ('.' :: k ++ ['.']) localPart ||
  containsSeq ('-' :: k) localPart ||
  containsSeq (k ++ ['-']) localPart ||
  containsSeq ('_' :: k) localPart ||
  containsSeq (k ++ ['_']) localPart

/-- The `roleKeywords` list of the service, verbatim (duplicates kept). -/
def roleKeywords : List String :=
  ["admin", "administrator", "support", "info", "help", "service",
   "contact", "team", "sales", "marketing", "hr", "billing", "security",
   "noreply", "no-reply", "webmaster", "postmaster", "hostmaster",
   "office", "careers", "jobs", "recruitment", "it", "tech", "feedback",
   "enquiries", "inquiries", "helpdesk", "support", "services", "orders",
   "shipping", "accounts", "accounting", "finance", "payroll",
   "purchasing", "legal", "media", "press", "news", "newsletter",
   "subscriptions", "unsubscribe", "abuse", "spam", "compliance",
   "privacy", "careers", "development", "dev", "operations", "ops",
   "research", "partners", "partnership", "reception", "supply",
   "logistics", "warehouse", "customercare", "customersupport",
   "customerservice", "complaints", "returns", "quality", "training",
   "facilities", "maintenance", "events", "social", "digital", "online",
   "website", "web", "analytics", "data", "systems", "network",
   "infrastructure", "project", "projects", "procurement", "vendor",
   "suppliers", "corporate", "enterprise", "business", "community",
   "public", "external", "internal", "global", "local", "regional",
   "group", "department", "staff", "employee", "personnel", "talent",
   "benefits", "compensation", "relations", "success", "experience",
   "engagement", "brand", "creative",
   "assistance", "aide", "bureau", "comptabilite", "direction",
   "secretariat", "accueil", "commercial", "ventes", "equipe",
   "service-client", "contact", "information", "administration",
   "gestion", "rh", "facturation", "securite", "ne-pas-repondre",
   "communication", "recrutement", "emplois", "carrieres", "technique",
   "informatique", "commandes", "expeditions", "livraison", "finances",
   "paie", "achats", "juridique", "presse", "actualites", "newsletter",
   "desabonnement", "abonnements", "conformite", "confidentialite",
   "developpement", "partenariats", "recherche", "formation", "stage",
   "stages", "logistique", "entrepot", "qualite", "evenements",
   "maintenance", "systemes", "projets", "approvisionnement",
   "fournisseurs", "entreprise", "communaute", "personnel", "avantages",
   "experience-client", "engagement", "marque", "creation", "social",
   "commanditaire", "departement", "groupe", "succursale", "siege",
   "exploitation", "production", "atelier", "ressources", "talents",
   "apprentissage", "conseil", "consultation", "innovation",
   "info-fr", "info-en", "info-uk", "info-us", "support-fr",
   "support-en", "help-fr", "help-en",
   "reservations", "bookings", "tickets", "sales", "academic",
   "faculty", "admissions", "alumni", "donations", "fundraising",
   "grants", "sponsors", "editorial", "submissions", "studios",
   "production"]

/-- Embedding of `isRoleEmail`: lowercase the local part and test every
keyword with the eight boundary rules. -/
def isRoleEmail (email : String) : Bool :=
  let localPart := toLowerChars (localPartOf email)
  roleKeywords.any (fun k => boundaryMatch localPart k.data)

/-! Section: DNS resolver -/

/-- Model of `dns.MxRecord`. -/
structure MxRecord where
  exchange : String
  priority : Nat
deriving Repr, DecidableEq

/-- Model of the `DnsVerificationResult` interface of the source. -/
structure DnsVerificationResult where
  hasMxRecord : Bool
  hasSPF : Bool
  hasDMARC : Bool
  mxRecords : List MxRecord
  spfRecord : Option String := none
  dmarcRecord : Option String := none
  errors : List String
deriving Repr, DecidableEq

/-- Embedding of `verifyEmailDns`.  The three network lookups
(`resolveMx(domain)`, `resolveTxt(domain)`, `resolveTxt('_dmarc.'+domain)`)
are external collaborators, passed as `Except` values whose `error` case
models a rejected promise.  Each lookup is wrapped in its own
`try`/`catch` in the source, so a failure appends one entry to `errors`
and the function itself always returns a result (the outer `catch` that
would re-throw is unreachable). -/
def verifyEmailDns (mxLookup : Except String (List MxRecord))
    (txtLookup dmarcLookup : Except String (List (List String))) :
    DnsVerificationResult :=
  let r0 : DnsVerificationResult :=
    { hasMxRecord := false, hasSPF := false, hasDMARC := false,
      mxRecords := [], errors := [] }
  let r1 :=
    match mxLookup with
    | .ok mxRecords =>
      { r0 with hasMxRecord := decide (0 < mxRecords.length),
                mxRecords := mxRecords }
    | .error e => { r0 with errors := r0.errors ++ ["MX lookup failed: " ++ e] }
  let r2 :=
    match txtLookup with
    | .ok txtRecords =>
      let spfRecord := txtRecords.flatten.find? (fun r => jsStartsWith r "v=spf1")
      { r1 with hasSPF := spfRecord.isSome, spfRecord := spfRecord }
    | .error e => { r1 with errors := r1.errors ++ ["SPF lookup failed: " ++ e] }
  match dmarcLookup with
  | .ok dmarcRecords =>
    let dmarcRecord := dmarcRecords.flatten.find? (fun r => jsStartsWith r "v=DMARC1")
    { r2 with hasDMARC := dmarcRecord.isSome, dmarcRecord := dmarcRecord }
  | .error e => { r2 with errors := r2.errors ++ ["DMARC lookup failed: " ++ e] }

/-- Embedding of `extractMxRecords`: the exchange hostnames plus the
provider classification by hostname substring, first match winning. -/
def extractMxRecords (mxRecordss : List MxRecord) : List String × String :=
  let mxRecords := mxRecordss.map (·.exchange)
  let provider :=
    if mxRecords.any (fun ex => jsIncludes ex "google.com") then "Google"
    else if mxRecords.any (fun ex =>
        jsIncludes ex "outlook.com" || jsIncludes ex "protection.outlook.com") then
      "Microsoft"
    else if mxRecords.any (fun ex => jsIncludes ex "yahoodns.net") then "Yahoo"
    else if mxRecords.any (fun ex => jsIncludes ex "cloudflare.net") then
      "CloudflareEmailRouting"
    else "Unknown"
  (mxRecords, provider)

/-! Section: SMTP prober -/

/-- Model of the `SmtpVerificationResult` interface of the source. -/
structure SmtpVerificationResult where
  success : Bool
  «exists» : Bool
  message : String
deriving Repr, DecidableEq

/-- Observable behaviour of one `verifyEmail` call: transport connections
opened (host, port), command strings written to the socket in order,
whether the socket was destroyed, and the resolved result. -/
structure SmtpTrace where
  connections : List (String × Nat)
  commands : List String
  destroyed : Bool
  result : SmtpVerificationResult
deriving Repr, DecidableEq

/-- Embedding of the private `closeConnection` helper: clear the timeout,
write `QUIT`, destroy the socket, resolve with `success := true`. -/
def closeConnection («exists» : Bool) (message : String) :
    List String × SmtpVerificationResult :=
  (["QUIT\r\n"], { success := true, «exists» := «exists», message := message })

/-- Embedding of the `data`-event handler of `verifyEmail`, folded over
the scripted list of server response lines (each element is one complete,
already-trimmed response line, matching the `buffer`/`trim` handling of
the source).  An exhausted script with no terminal decision models the
overall-timeout expiry: the source's `setTimeout` callback destroys the
socket — without writing `QUIT` — and resolves
`{success:false, exists:false, message:'Connection timeout'}`. -/
def smtpLoop (domain email : String) (step : Nat) :
    List String → List String × SmtpVerificationResult
  | [] =>
    ([], { success := false, «exists» := false, message := "Connection timeout" })
  | response :: rest =>
    match step with
    | 0 =>
      if jsStartsWith response "2" then
        let p := smtpLoop domain email 1 rest
        (("EHLO " ++ domain ++ "\r\n") :: p.1, p.2)
      else closeConnection false "Server not ready"
    | 1 =>
      if jsStartsWith response "2" then
        let p := smtpLoop domain email 2 rest
        ("STARTTLS\r\n" :: p.1, p.2)
      else closeConnection false "EHLO failed"
    | 2 =>
      if jsStartsWith response "2" then
        let p := smtpLoop domain email 3 rest
        (("MAIL FROM:<verify@" ++ domain ++ ">\r\n") :: p.1, p.2)
      else closeConnection false "STARTTLS failed"
    | 3 =>
      if jsStartsWith response "2" then
        let p := smtpLoop domain email 4 rest
        (("RCPT TO:<" ++ email ++ ">\r\n") :: p.1, p.2)
      else closeConnection false "MAIL FROM failed"
    | 4 =>
      if jsStartsWith response "250" then closeConnection true "Email exists"
      else if jsIncludes response "blocked" || jsIncludes response "Service unavailable" then
        closeConnection false "Verification failed: Server blocked our request"
      else if jsStartsWith response "550" then
        closeConnection false "Email does not exist"
      else closeConnection false "Unexpected response"
    | _ + 5 => smtpLoop domain email step rest

/-- Embedding of the active `verifyEmail` of the source.  With no usable
MX record it returns immediately without opening a connection; otherwise
it opens exactly one TLS connection to the hard-coded host
`smtp.office365.com` on port 587 (never to a resolved exchange) and runs
the scripted handshake. -/
def verifyEmail (email : String) (dnsResult : DnsVerificationResult)
    (script : List String) : SmtpTrace :=
  if dnsResult.hasMxRecord = false ∨ dnsResult.mxRecords.length = 0 then
    { connections := [], commands := [], destroyed := false,
      result := { success := false, «exists» := false,
                  message := "No MX records found for domain" } }
  else
    let domain : String :=
      match (splitOnChar '@' email.data)[1]? with
      | some d => ⟨d⟩
      | none => "undefined"
    let p := smtpLoop domain email 0 script
    { connections := [("smtp.office365.com", 587)], commands := p.1,
      destroyed := true, result := p.2 }

/-! Section: verification orchestrator -/

/-- Model of the persisted email record as created by `verifyOneEmail`
(`listId` is stripped by the destructuring before the record is returned;
the `time` field, a wall-clock `Date`, is outside the embedding). -/
structure EmailRecord where
  email : String
  score : Nat
  state : String
  free : String
  role : String
  disposable : Bool
  mxRecords : List String
  SmtpProvider : String
deriving Repr, DecidableEq

/-- Externally observable side effects of the orchestrator. -/
inductive Event where
  | smtpConnect (host : String) (port : Nat)
  | persistCreate (email : String) (ok : Bool)
  | sleep (ms : Nat)
deriving Repr, DecidableEq

/-- Model of `VerifyOneDto`: `email` is the context user, `check` the
target address. -/
structure VerifyOneDto where
  email : String
  check : String
deriving Repr, DecidableEq

/-- Model of `VerifyManyDto`. -/
structure VerifyManyDto where
  email : String
  name : String
  emails : List String
deriving Repr, DecidableEq

/-- External collaborators of the orchestrator: the disposable blacklist
data file, the DNS resolver keyed by lookup name, the scripted SMTP
server responses per probed address, and whether `emailsModel.create`
succeeds for a given address. -/
structure Env where
  blacklist : List String
  mxLookup : String → Except String (List MxRecord)
  txtLookup : String → Except String (List (List String))
  smtpScript : String → List String
  persistOk : String → Bool

/-- DNS resolution as `verifyOneEmail` performs it: extract the domain of
the target (the JavaScript `undefined` of a malformed address is
interpolated into the lookup keys as the string `"undefined"`) and run
`verifyEmailDns` on the three lookups. -/
def dnsFor (env : Env) (email : String) : DnsVerificationResult :=
  let domain : String :=
    match domainOf email with
    | some d => ⟨d⟩
    | none => "undefined"
  verifyEmailDns (env.mxLookup domain) (env.txtLookup domain)
    (env.txtLookup ("_dmarc." ++ domain))

/-- Embedding of the live path of `verifyOneEmail` (everything after the
first `return` in the source is unreachable).  The whole body sits in one
`try`/`catch` whose handler only logs, so any thrown error — the
`TypeError` of `checkFreeOrPaid` on a malformed address, or a rejected
`emailsModel.create` — makes the call return `undefined`, modelled as
`none`.  The second component collects the observable side effects. -/
def verifyOneEmail (env : Env) (data : VerifyOneDto) :
    Option EmailRecord × List Event :=
  let dns := dnsFor env data.check
  match checkFreeOrPaid data.check with
  | .error _ => (none, [])
  | .ok free =>
    let role := if isRoleEmail data.check then "Yes" else "No"
    let info := extractMxRecords dns.mxRecords
    let disposable := isBlacklisted env.blacklist data.check
    if disposable then
      let record : EmailRecord :=
        { email := data.check, score := 5, state := "Risky", free := free,
          role := role, disposable := disposable, mxRecords := info.1,
          SmtpProvider := info.2 }
      if env.persistOk data.check then
        (some record, [.persistCreate data.check true])
      else
        (none, [.persistCreate data.check false])
    else
      let t := verifyEmail data.check dns (env.smtpScript data.check)
      let score := if t.result.exists then 99 else 0
      let state := if t.result.exists then "Deliverable" else "Undeliverable"
      let record : EmailRecord :=
        { email := data.check, score := score, state := state, free := free,
          role := role, disposable := disposable, mxRecords := info.1,
          SmtpProvider := info.2 }
      let evs := t.connections.map (fun c => Event.smtpConnect c.1 c.2)
      if env.persistOk data.check then
        (some record, evs ++ [.persistCreate data.check true])
      else
        (none, evs ++ [.persistCreate data.check false])

/-- Sequential processing loop of `verifyManyEmail`: one target at a
time, in order, with `sleep(2000)` after each iteration. -/
def verifyManyLoop (env : Env) (contextEmail : String) :
    List String → List (Option EmailRecord) × List Event
  | [] => ([], [])
  | e :: rest =>
    let r := verifyOneEmail env { email := contextEmail, check := e }
    let q := verifyManyLoop env contextEmail rest
    (r.1 :: q.1, r.2 ++ [.sleep 2000] ++ q.2)

/-- Embedding of the live path of `verifyManyEmail` (the source returns
`dataa` right after the loop; the list-id bookkeeping below that `return`
is unreachable). -/
def verifyManyEmail (env : Env) (data : VerifyManyDto) :
    List (Option EmailRecord) × List Event :=
  verifyManyLoop env data.email data.emails

/-! Section: concrete fixtures for witnesses and counterexamples -/

/-- DNS result with one usable MX record. -/
def dns0 : DnsVerificationResult :=
  { hasMxRecord := true, hasSPF := false, hasDMARC := false,
    mxRecords := [⟨"mx.example.com", 10⟩], errors := [] }

/-- Environment whose collaborators all succeed: one blacklisted domain,
one MX record everywhere, an SMTP server that accepts the whole
handshake, persistence that always succeeds. -/
def envW : Env :=
  { blacklist := ["mailinator.com"],
    mxLookup := fun _ => .ok [⟨"mx.example.com", 10⟩],
    txtLookup := fun _ => .ok [],
    smtpScript := fun _ => ["220 ok", "250 a", "250 b", "250 c", "250 d"],
    persistOk := fun _ => true }

/-- Same environment as `envW` except that `emailsModel.create` rejects
for every address. -/
def envFail : Env :=
  { envW with persistOk := fun _ => false }

end EmailChecker

namespace EmailChecker

/-! Section: general helper lemmas about the string primitives -/

/-- Quick sanity examples for the classifier embedding. -/
theorem classifier_sanity :
    checkFreeOrPaid "a@GMail.com" = .ok "Free" ∧
    checkFreeOrPaid "a@my-corp.io" = .ok "Paid" ∧
    isRoleEmail "support@x.io" = true ∧
    isRoleEmail "johnsupport@x.io" = false := by
  refine ⟨rfl, rfl, ?_, ?_⟩ <;> decide

/-- Splitting on a character that does not occur returns the whole list
as the single piece. -/
theorem splitOnChar_no_sep (sep : Char) (l : List Char) (h : sep ∉ l) :
    splitOnChar sep l = [l] := by
  induction l with
  | nil => rfl
  | cons c rest ih =>
    have hne : ¬ (c = sep) := by
      intro hc
      exact h (by rw [← hc]; exact List.mem_cons_self c rest)
    unfold splitOnChar
    rw [if_neg hne]
    rw [ih (fun hr => h (List.mem_cons_of_mem c hr))]

/-- Elements of a leading segment are elements of the list. -/
theorem isPrefixOf_subset {pat l : List Char} (h : pat.isPrefixOf l = true) :
    ∀ a ∈ pat, a ∈ l := by
  rw [ List.isPrefixOf_iff_prefix] at h
  exact fun a ha => h.subset ha

/-- Elements of a trailing segment are elements of the list. -/
theorem isSuffixOf_subset {pat l : List Char} (h : pat.isSuffixOf l = true) :
    ∀ a ∈ pat, a ∈ l := by
  rw [ List.isSuffixOf_iff_suffix] at h
  exact fun a ha => h.subset ha

/-- Elements of a contained segment are elements of the list. -/
theorem containsSeq_subset {pat l : List Char} (h : containsSeq pat l = true) :
    ∀ a ∈ pat, a ∈ l := by
  induction l with
  | nil =>
    simp only [containsSeq] at h
    exact fun a ha => isPrefixOf_subset h a ha
  | cons c rest ih =>
    simp only [containsSeq, Bool.or_eq_true] at h
    rcases h with h | h
    · exact isPrefixOf_subset h
    · exact fun a ha => List.mem_cons_of_mem c (ih h a ha)

/-- Round trip through `Char.ofNat` for code points below the surrogate
range. -/
theorem toNat_ofNat_of_lt (n : Nat) (h : n < 55296) : (Char.ofNat n).toNat = n := by
  have hv : n.isValidChar := Or.inl (by omega)
  unfold Char.ofNat
  rw [dif_pos hv]
  simp [Char.ofNatAux, Char.toNat, UInt32.toNat, BitVec.ofNatLt]

/-- Lowercasing maps onto a separator-free code point range: a character
whose lowercase form is a non-letter (code point below 97) was already
that character. -/
theorem toLower_sep (c sep : Char) (hs : sep.toNat < 97) (h : c.toLower = sep) :
    c = sep := by
  unfold Char.toLower at h
  by_cases hr : c.toNat ≥ 65 ∧ c.toNat ≤ 90
  · rw [if_pos hr] at h
    exfalso
    have h2 : (Char.ofNat (c.toNat + 32)).toNat = c.toNat + 32 :=
      toNat_ofNat_of_lt _ (by omega)
    rw [h] at h2
    omega
  · rwa [if_neg hr] at h

/-- Lowercasing a list never introduces a separator character. -/
theorem toLowerChars_no_sep (l : List Char) (sep : Char) (hs : sep.toNat < 97)
    (h : sep ∉ l) : sep ∉ toLowerChars l := by
  intro hc
  obtain ⟨c, hcm, hce⟩ := List.mem_map.1 hc
  exact h (toLower_sep c sep hs hce ▸ hcm)

/-- On a local part containing none of the separator characters
`'.'`, `'-'`, `'_'`, the eight-way boundary test degenerates to exact
keyword equality. -/
theorem boundaryMatch_no_sep {lp : List Char} (k : List Char)
    (h1 : '.' ∉ lp) (h2 : '-' ∉ lp) (h3 : '_' ∉ lp) :
    boundaryMatch lp k = decide (lp = k) := by
  have hA : (k ++ ['.']).isPrefixOf lp = false := by
    by_contra hc
    rw [Bool.not_eq_false] at hc
    exact h1 (isPrefixOf_subset hc '.' (by simp))
  have hB : ('.' :: k).isSuffixOf lp = false := by
    by_contra hc
    rw [Bool.not_eq_false] at hc
    exact h1 (isSuffixOf_subset hc '.' (by simp))
  have hC : containsSeq ('.' :: k ++ ['.']) lp = false := by
    by_contra hc
    rw [Bool.not_eq_false] at hc
    exact h1 (containsSeq_subset hc '.' (by simp))
  have hD : containsSeq ('-' :: k) lp = false := by
    by_contra hc
    rw [Bool.not_eq_false] at hc
    exact h2 (containsSeq_subset hc '-' (by simp))
  have hE : containsSeq (k ++ ['-']) lp = false := by
    by_contra hc
    rw [Bool.not_eq_false] at hc
    exact h2 (containsSeq_subset hc '-' (by simp))
  have hF : containsSeq ('_' :: k) lp = false := by
    by_contra hc
    rw [Bool.not_eq_false] at hc
    exact h3 (containsSeq_subset hc '_' (by simp))
  have hG : containsSeq (k ++ ['_']) lp = false := by
    by_contra hc
    rw [Bool.not_eq_false] at hc
    exact h3 (containsSeq_subset hc '_' (by simp))
  unfold boundaryMatch
  rw [hA, hB, hC, hD, hE, hF, hG]
  simp

/-! Section: claims about the domain classifier -/

/-- Claim C8: the role-mailbox test matches a keyword only at a boundary
(exact equality, dot adjacency, or dash/underscore adjacency),
case-insensitively: `support` and `support-desk` are role mailboxes,
while a bare embedded substring with no separator such as `johnsupport`
is not — on any local part with no separator character, a keyword
matches only by exact (lowercased) equality. -/
theorem isRoleEmail_boundary :
    isRoleEmail "support" = true ∧
    isRoleEmail "support-desk" = true ∧
    isRoleEmail "johnsupport" = false ∧
    ∀ s : String, '@' ∉ s.data → '.' ∉ s.data → '-' ∉ s.data → '_' ∉ s.data →
      (isRoleEmail s = true ↔ ∃ k ∈ roleKeywords, toLowerChars s.data = k.data) := by
  refine ⟨by decide, by decide, by decide, ?_⟩
  intro s h0 h1 h2 h3
  have hlp : localPartOf s = s.data := by
    unfold localPartOf
    rw [splitOnChar_no_sep _ _ h0]
    rfl
  have l1 := toLowerChars_no_sep s.data '.' (by decide) h1
  have l2 := toLowerChars_no_sep s.data '-' (by decide) h2
  have l3 := toLowerChars_no_sep s.data '_' (by decide) h3
  show roleKeywords.any (fun k => boundaryMatch (toLowerChars (localPartOf s)) k.data)
        = true ↔ _
  rw [hlp, List.any_eq_true]
  constructor
  · rintro ⟨k, hk, hbm⟩
    rw [boundaryMatch_no_sep k.data l1 l2 l3] at hbm
    exact ⟨k, hk, of_decide_eq_true hbm⟩
  · rintro ⟨k, hk, heq⟩
    refine ⟨k, hk, ?_⟩
    rw [boundaryMatch_no_sep k.data l1 l2 l3]
    exact decide_eq_true heq

/-- Witness for C8: the separator-free characterization applied to the
concrete local part `johnsupport`. -/
theorem c8_witness :
    isRoleEmail "johnsupport" = true ↔
      ∃ k ∈ roleKeywords, toLowerChars "johnsupport".data = k.data :=
  isRoleEmail_boundary.2.2.2 "johnsupport" (by decide) (by decide) (by decide)
    (by decide)

/-- Claim C10: on an input string with no `'@'`, `checkFreeOrPaid` throws
(the undefined domain part is dereferenced), `isBlacklisted` returns
`false`, and `isRoleEmail` evaluates the whole string as the local part —
the pure classifiers are not uniformly total over malformed addresses. -/
theorem malformed_email_classifiers (bl : List String) (s : String)
    (h : '@' ∉ s.data) :
    (∃ msg, checkFreeOrPaid s = .error msg) ∧
    isBlacklisted bl s = false ∧
    isRoleEmail s =
      roleKeywords.any (fun k => boundaryMatch (toLowerChars s.data) k.data) := by
  have hsplit : splitOnChar '@' s.data = [s.data] := splitOnChar_no_sep _ _ h
  have hdom : domainOf s = none := by
    unfold domainOf
    rw [hsplit]
    rfl
  refine ⟨⟨"TypeError: Cannot read properties of undefined", ?_⟩, ?_, ?_⟩
  · unfold checkFreeOrPaid
    rw [hdom]
  · unfold isBlacklisted
    rw [hdom]
  · show roleKeywords.any (fun k => boundaryMatch (toLowerChars (localPartOf s)) k.data) = _
    unfold localPartOf
    rw [hsplit]
    rfl

/-- Witness for C10 at the concrete malformed address `no-at-sign`. -/
theorem c10_witness :
    (∃ msg, checkFreeOrPaid "no-at-sign" = .error msg) ∧
    isBlacklisted ["mailinator.com"] "no-at-sign" = false ∧
    isRoleEmail "no-at-sign" =
      roleKeywords.any (fun k => boundaryMatch (toLowerChars "no-at-sign".data) k.data) :=
  malformed_email_classifiers ["mailinator.com"] "no-at-sign" (by decide)

/-! Section: helper lemmas about the SMTP loop -/

/-- An EHLO command line is never the QUIT command line. -/
theorem ehlo_ne_quit (d : String) : ("EHLO " ++ d ++ "\r\n") ≠ "QUIT\r\n" := by
  intro h
  have h2 := congrArg String.data h
  simp [String.data_append] at h2

/-- A MAIL FROM command line is never the QUIT command line. -/
theorem mailfrom_ne_quit (d : String) :
    ("MAIL FROM:<verify@" ++ d ++ ">\r\n") ≠ "QUIT\r\n" := by
  intro h
  have h2 := congrArg String.data h
  simp [String.data_append] at h2

/-- An RCPT TO command line is never the QUIT command line. -/
theorem rcptto_ne_quit (d : String) : ("RCPT TO:<" ++ d ++ ">\r\n") ≠ "QUIT\r\n" := by
  intro h
  have h2 := congrArg String.data h
  simp [String.data_append] at h2

/-- Whenever the SMTP loop resolves through `closeConnection`
(`success = true`), the last command written is QUIT. -/
theorem smtpLoop_quit (domain email : String) (script : List String) (step : Nat)
    (h : (smtpLoop domain email step script).2.success = true) :
    (smtpLoop domain email step script).1.getLast? = some "QUIT\r\n" := by
  induction script generalizing step with
  | nil => simp [smtpLoop] at h
  | cons r rest ih =>
    rcases step with _ | _ | _ | _ | _ | n
    case _ =>
      cases hc : jsStartsWith r "2" with
      | true =>
        simp only [smtpLoop, hc, if_true] at h ⊢
        have hlast := ih 1 h
        rcases he : (smtpLoop domain email 1 rest).1 with _ | ⟨c, cs⟩
        · rw [he] at hlast
          simp at hlast
        · rw [he] at hlast
          rw [List.getLast?_cons_cons]
          exact hlast
      | false => simp [smtpLoop, hc, closeConnection]
    case _ =>
      cases hc : jsStartsWith r "2" with
      | true =>
        simp only [smtpLoop, hc, if_true] at h ⊢
        have hlast := ih 2 h
        rcases he : (smtpLoop domain email 2 rest).1 with _ | ⟨c, cs⟩
        · rw [he] at hlast
          simp at hlast
        · rw [he] at hlast
          rw [List.getLast?_cons_cons]
          exact hlast
      | false => simp [smtpLoop, hc, closeConnection]
    case _ =>
      cases hc : jsStartsWith r "2" with
      | true =>
        simp only [smtpLoop, hc, if_true] at h ⊢
        have hlast := ih 3 h
        rcases he : (smtpLoop domain email 3 rest).1 with _ | ⟨c, cs⟩
        · rw [he] at hlast
          simp at hlast
        · rw [he] at hlast
          rw [List.getLast?_cons_cons]
          exact hlast
      | false => simp [smtpLoop, hc, closeConnection]
    case _ =>
      cases hc : jsStartsWith r "2" with
      | true =>
        simp only [smtpLoop, hc, if_true] at h ⊢
        have hlast := ih 4 h
        rcases he : (smtpLoop domain email 4 rest).1 with _ | ⟨c, cs⟩
        · rw [he] at hlast
          simp at hlast
        · rw [he] at hlast
          rw [List.getLast?_cons_cons]
          exact hlast
      | false => simp [smtpLoop, hc, closeConnection]
    case _ =>
      simp only [smtpLoop]
      split
      · rfl
      · split
        · rfl
        · split <;> rfl
    case _ =>
      simp only [smtpLoop] at h ⊢
      exact ih _ h

/-- Whenever the SMTP loop resolves with `success = false` it did so via
the overall-timeout expiry: the message is the timeout diagnostic and no
QUIT command was ever written. -/
theorem smtpLoop_timeout (domain email : String) (script : List String) (step : Nat)
    (h : (smtpLoop domain email step script).2.success = false) :
    "QUIT\r\n" ∉ (smtpLoop domain email step script).1 ∧
    (smtpLoop domain email step script).2.message = "Connection timeout" := by
  induction script generalizing step with
  | nil => exact ⟨by simp [smtpLoop], rfl⟩
  | cons r rest ih =>
    rcases step with _ | _ | _ | _ | _ | n
    case _ =>
      cases hc : jsStartsWith r "2" with
      | true =>
        simp only [smtpLoop, hc, if_true] at h ⊢
        obtain ⟨hmem, hmsg⟩ := ih 1 h
        refine ⟨?_, hmsg⟩
        intro hq
        rcases List.mem_cons.1 hq with hq | hq
        · exact ehlo_ne_quit domain hq.symm
        · exact hmem hq
      | false => simp [smtpLoop, hc, closeConnection] at h
    case _ =>
      cases hc : jsStartsWith r "2" with
      | true =>
        simp only [smtpLoop, hc, if_true] at h ⊢
        obtain ⟨hmem, hmsg⟩ := ih 2 h
        refine ⟨?_, hmsg⟩
        intro hq
        rcases List.mem_cons.1 hq with hq | hq
        · simp at hq
        · exact hmem hq
      | false => simp [smtpLoop, hc, closeConnection] at h
    case _ =>
      cases hc : jsStartsWith r "2" with
      | true =>
        simp only [smtpLoop, hc, if_true] at h ⊢
        obtain ⟨hmem, hmsg⟩ := ih 3 h
        refine ⟨?_, hmsg⟩
        intro hq
        rcases List.mem_cons.1 hq with hq | hq
        · exact mailfrom_ne_quit domain hq.symm
        · exact hmem hq
      | false => simp [smtpLoop, hc, closeConnection] at h
    case _ =>
      cases hc : jsStartsWith r "2" with
      | true =>
        simp only [smtpLoop, hc, if_true] at h ⊢
        obtain ⟨hmem, hmsg⟩ := ih 4 h
        refine ⟨?_, hmsg⟩
        intro hq
        rcases List.mem_cons.1 hq with hq | hq
        · exact rcptto_ne_quit email hq.symm
        · exact hmem hq
      | false => simp [smtpLoop, hc, closeConnection] at h
    case _ =>
      exfalso
      simp only [smtpLoop] at h
      split at h
      · simp [closeConnection] at h
      · split at h
        · simp [closeConnection] at h
        · split at h <;> simp [closeConnection] at h
    case _ =>
      simp only [smtpLoop] at h ⊢
      exact ih _ h

/-! Section: claims about the SMTP prober -/

/-- Claim C2: with MX records present, the scripted accepting server
produces `exists = true` with the commands EHLO, STARTTLS, MAIL FROM,
RCPT TO sent in that order (followed by QUIT); replacing the last
response by a 550 rejection produces `exists = false`; and an expired
timeout with no response produces `success = false` with the
timeout-indicating message. -/
theorem verifyEmail_scripted_runs (dns : DnsVerificationResult)
    (hmx : dns.hasMxRecord = true) (hne : dns.mxRecords ≠ []) :
    ((verifyEmail "user@example.com" dns
        ["220 ok", "250 ehlo-ok", "250 starttls-ok", "250 mail-ok", "250 rcpt-ok"]).result
      = ⟨true, true, "Email exists"⟩ ∧
     (verifyEmail "user@example.com" dns
        ["220 ok", "250 ehlo-ok", "250 starttls-ok", "250 mail-ok", "250 rcpt-ok"]).commands
      = ["EHLO example.com\r\n", "STARTTLS\r\n", "MAIL FROM:<verify@example.com>\r\n",
         "RCPT TO:<user@example.com>\r\n", "QUIT\r\n"]) ∧
    (verifyEmail "user@example.com" dns
        ["220 ok", "250 ehlo-ok", "250 starttls-ok", "250 mail-ok", "550 no such user"]).result
      = ⟨true, false, "Email does not exist"⟩ ∧
    (verifyEmail "user@example.com" dns []).result
      = ⟨false, false, "Connection timeout"⟩ := by
  have hcond : ¬(dns.hasMxRecord = false ∨ dns.mxRecords.length = 0) := by
    rintro (hx | hx)
    · rw [hmx] at hx
      cases hx
    · exact hne (List.length_eq_zero.1 hx)
  unfold verifyEmail
  rw [if_neg hcond, if_neg hcond, if_neg hcond]
  exact ⟨⟨rfl, rfl⟩, rfl, rfl⟩

/-- Witness for C2 at the concrete one-MX DNS result `dns0`. -/
theorem c2_witness :
    ((verifyEmail "user@example.com" dns0
        ["220 ok", "250 ehlo-ok", "250 starttls-ok", "250 mail-ok", "250 rcpt-ok"]).result
      = ⟨true, true, "Email exists"⟩ ∧
     (verifyEmail "user@example.com" dns0
        ["220 ok", "250 ehlo-ok", "250 starttls-ok", "250 mail-ok", "250 rcpt-ok"]).commands
      = ["EHLO example.com\r\n", "STARTTLS\r\n", "MAIL FROM:<verify@example.com>\r\n",
         "RCPT TO:<user@example.com>\r\n", "QUIT\r\n"]) ∧
    (verifyEmail "user@example.com" dns0
        ["220 ok", "250 ehlo-ok", "250 starttls-ok", "250 mail-ok", "550 no such user"]).result
      = ⟨true, false, "Email does not exist"⟩ ∧
    (verifyEmail "user@example.com" dns0 []).result
      = ⟨false, false, "Connection timeout"⟩ :=
  verifyEmail_scripted_runs dns0 (by decide) (by decide)

/-- Claim C6: whenever MX records are present the probe opens exactly one
connection, to the fixed relay `smtp.office365.com` port 587, for every
email, DNS result and server behaviour — never to a resolved exchange
and never a second connection on rejection. -/
theorem verifyEmail_fixed_relay (email : String) (dns : DnsVerificationResult)
    (script : List String) (hmx : dns.hasMxRecord = true)
    (hne : dns.mxRecords ≠ []) :
    (verifyEmail email dns script).connections = [("smtp.office365.com", 587)] := by
  have hcond : ¬(dns.hasMxRecord = false ∨ dns.mxRecords.length = 0) := by
    rintro (hx | hx)
    · rw [hmx] at hx
      cases hx
    · exact hne (List.length_eq_zero.1 hx)
  unfold verifyEmail
  rw [if_neg hcond]

/-- Witness for C6: two resolved exchanges, a rejecting server, still one
connection to the fixed relay. -/
theorem c6_witness :
    (verifyEmail "user@example.com"
      { dns0 with mxRecords := [⟨"mx1.corp.io", 5⟩, ⟨"mx2.corp.io", 10⟩] }
      ["550 no"]).connections = [("smtp.office365.com", 587)] :=
  verifyEmail_fixed_relay "user@example.com" _ ["550 no"] (by decide) (by decide)

/-- Counterexample to claim C9 as stated: on the overall-timeout expiry
path the probe reaches a terminal result and tears the connection down,
but no QUIT command is ever written. -/
theorem c9_counterexample :
    (verifyEmail "user@example.com" dns0 []).result
      = ⟨false, false, "Connection timeout"⟩ ∧
    (verifyEmail "user@example.com" dns0 []).destroyed = true ∧
    "QUIT\r\n" ∉ (verifyEmail "user@example.com" dns0 []).commands := by
  refine ⟨by decide, by decide, ?_⟩
  decide

/-- Claim C9 as amended: once the probe has opened its connection, every
exit path tears the connection down; the paths that resolve through
`closeConnection` (`success = true`) write QUIT as the final command,
while the timeout expiry path (`success = false`) destroys the socket
without writing QUIT. -/
theorem verifyEmail_teardown (email : String) (dns : DnsVerificationResult)
    (script : List String) (hmx : dns.hasMxRecord = true)
    (hne : dns.mxRecords ≠ []) :
    (verifyEmail email dns script).destroyed = true ∧
    ((verifyEmail email dns script).result.success = true →
      (verifyEmail email dns script).commands.getLast? = some "QUIT\r\n") ∧
    ((verifyEmail email dns script).result.success = false →
      (verifyEmail email dns script).result.message = "Connection timeout" ∧
      "QUIT\r\n" ∉ (verifyEmail email dns script).commands) := by
  have hcond : ¬(dns.hasMxRecord = false ∨ dns.mxRecords.length = 0) := by
    rintro (hx | hx)
    · rw [hmx] at hx
      cases hx
    · exact hne (List.length_eq_zero.1 hx)
  unfold verifyEmail
  rw [if_neg hcond]
  refine ⟨rfl, fun hs => smtpLoop_quit _ _ _ _ hs, fun hs => ?_⟩
  obtain ⟨hmem, hmsg⟩ := smtpLoop_timeout _ _ _ _ hs
  exact ⟨hmsg, hmem⟩

/-- Witness for the amended C9 at a concrete rejected handshake. -/
theorem c9_witness :
    (verifyEmail "user@example.com" dns0 ["550 bad"]).destroyed = true ∧
    ((verifyEmail "user@example.com" dns0 ["550 bad"]).result.success = true →
      (verifyEmail "user@example.com" dns0 ["550 bad"]).commands.getLast?
        = some "QUIT\r\n") ∧
    ((verifyEmail "user@example.com" dns0 ["550 bad"]).result.success = false →
      (verifyEmail "user@example.com" dns0 ["550 bad"]).result.message
        = "Connection timeout" ∧
      "QUIT\r\n" ∉ (verifyEmail "user@example.com" dns0 ["550 bad"]).commands) :=
  verifyEmail_teardown "user@example.com" dns0 ["550 bad"] (by decide) (by decide)

/-! Section: claims about the DNS resolver -/

/-- Counterexample to claim C4 as stated: when the MX lookup delivers
records with priorities 20, 10 in that order, `verifyEmailDns` returns
them unsorted — its `mxRecords` is not ascending by priority. -/
theorem c4_counterexample :
    ¬ ((verifyEmailDns (.ok [⟨"b.example.com", 20⟩, ⟨"a.example.com", 10⟩])
        (.ok []) (.ok [])).mxRecords.Pairwise
          (fun a b => a.priority ≤ b.priority)) := by decide

/-- Claim C4 as amended: `verifyEmailDns` returns `mxRecords` exactly as
the MX lookup delivered them, in delivery order, performing no sorting
(the ascending-priority sort in the source lives only in
`verifyEmailWithDnsResult`, which the active path never calls). -/
theorem verifyEmailDns_mx_delivery_order (ms : List MxRecord)
    (txt dmarc : Except String (List (List String))) :
    (verifyEmailDns (.ok ms) txt dmarc).mxRecords = ms := by
  unfold verifyEmailDns
  cases txt <;> cases dmarc <;> rfl

/-- Claim C5: the three DNS lookups are independent — with MX succeeding
(non-empty), the SPF TXT lookup throwing and the DMARC lookup succeeding,
the function still returns a value (it is total by construction) with
`hasMxRecord = true`, `hasSPF = false` and exactly one SPF-related entry
in `errors`. -/
theorem verifyEmailDns_independent_lookups (ms : List MxRecord) (hne : ms ≠ [])
    (e : String) (ds : List (List String)) :
    (verifyEmailDns (.ok ms) (.error e) (.ok ds)).hasMxRecord = true ∧
    (verifyEmailDns (.ok ms) (.error e) (.ok ds)).hasSPF = false ∧
    (verifyEmailDns (.ok ms) (.error e) (.ok ds)).mxRecords = ms ∧
    (verifyEmailDns (.ok ms) (.error e) (.ok ds)).errors
      = ["SPF lookup failed: " ++ e] := by
  refine ⟨?_, rfl, rfl, rfl⟩
  show decide (0 < ms.length) = true
  simp [List.length_pos, hne]

/-- Witness for C5 at a concrete one-record MX answer and a concrete
rejected TXT lookup. -/
theorem c5_witness :
    (verifyEmailDns (.ok [⟨"mx.corp.io", 10⟩]) (.error "queryTxt ETIMEOUT")
        (.ok [])).hasMxRecord = true ∧
    (verifyEmailDns (.ok [⟨"mx.corp.io", 10⟩]) (.error "queryTxt ETIMEOUT")
        (.ok [])).hasSPF = false ∧
    (verifyEmailDns (.ok [⟨"mx.corp.io", 10⟩]) (.error "queryTxt ETIMEOUT")
        (.ok [])).mxRecords = [⟨"mx.corp.io", 10⟩] ∧
    (verifyEmailDns (.ok [⟨"mx.corp.io", 10⟩]) (.error "queryTxt ETIMEOUT")
        (.ok [])).errors = ["SPF lookup failed: " ++ "queryTxt ETIMEOUT"] :=
  verifyEmailDns_independent_lookups [⟨"mx.corp.io", 10⟩] (by decide)
    "queryTxt ETIMEOUT" []

/-! Section: claims about the orchestrator -/

/-- Claim C1: when the target's domain is blacklisted, `verifyOneEmail`
returns a record with state Risky and score 5 and never opens an SMTP
connection; otherwise the record carries Deliverable/99 exactly when the
SMTP probe resolved with `exists = true` and Undeliverable/0 otherwise
(given a well-formed address and successful persistence). -/
theorem verifyOneEmail_policy (env : Env) (data : VerifyOneDto) (d : List Char)
    (hdom : domainOf data.check = some d) (hp : env.persistOk data.check = true) :
    (isBlacklisted env.blacklist data.check = true →
      ∃ r, (verifyOneEmail env data).1 = some r ∧ r.state = "Risky" ∧
        r.score = 5 ∧
        ∀ h p, Event.smtpConnect h p ∉ (verifyOneEmail env data).2) ∧
    (isBlacklisted env.blacklist data.check = false →
      ∃ r, (verifyOneEmail env data).1 = some r ∧
        r.state = (if (verifyEmail data.check (dnsFor env data.check)
            (env.smtpScript data.check)).result.exists
          then "Deliverable" else "Undeliverable") ∧
        r.score = (if (verifyEmail data.check (dnsFor env data.check)
            (env.smtpScript data.check)).result.exists then 99 else 0)) := by
  obtain ⟨free, hfree⟩ : ∃ f, checkFreeOrPaid data.check = .ok f := by
    simp only [checkFreeOrPaid, hdom]
    split <;> exact ⟨_, rfl⟩
  constructor
  · intro hbl
    unfold verifyOneEmail
    simp only [hfree, hbl, hp, if_true]
    refine ⟨_, rfl, rfl, rfl, ?_⟩
    intro h p
    simp
  · intro hbl
    unfold verifyOneEmail
    simp only [hfree, hbl, hp, if_true, Bool.false_eq_true, if_false]
    exact ⟨_, rfl, rfl, rfl⟩

/-- Witness for C1: a blacklisted target under the all-success
environment yields the Risky/5 record. -/
theorem c1_witness :
    ∃ r, (verifyOneEmail envW ⟨"ctx@x.io", "bob@mailinator.com"⟩).1 = some r ∧
      r.state = "Risky" ∧ r.score = 5 := by
  obtain ⟨h1, _⟩ := verifyOneEmail_policy envW ⟨"ctx@x.io", "bob@mailinator.com"⟩
    "mailinator.com".data (by decide) (by decide)
  obtain ⟨r, hr, hs, hsc, _⟩ := h1 (by decide)
  exact ⟨r, hr, hs, hsc⟩

/-- Counterexample to claim C3 as stated: with persistence failing, the
probe completes (a connection event precedes the failed persistence
event), yet the caller receives `none` rather than the verification
record; the identical environment with working persistence returns the
record. -/
theorem c3_counterexample :
    (verifyOneEmail envFail ⟨"ctx@x.io", "bob@corp.io"⟩).2
      = [Event.smtpConnect "smtp.office365.com" 587,
         Event.persistCreate "bob@corp.io" false] ∧
    (verifyOneEmail envFail ⟨"ctx@x.io", "bob@corp.io"⟩).1 = none ∧
    (verifyOneEmail envW ⟨"ctx@x.io", "bob@corp.io"⟩).1
      = some { email := "bob@corp.io", score := 99, state := "Deliverable",
               free := "Paid", role := "No", disposable := false,
               mxRecords := ["mx.example.com"], SmtpProvider := "Unknown" } := by
  refine ⟨by decide, by decide, by decide⟩

/-- Claim C3 as amended: a persistence failure is caught by the
function-wide handler (and logged), and `verifyOneEmail` then returns
`undefined` instead of the verification record — the verification result
is suppressed, not returned. -/
theorem verifyOneEmail_persist_failure (env : Env) (data : VerifyOneDto)
    (hp : env.persistOk data.check = false) :
    (verifyOneEmail env data).1 = none := by
  unfold verifyOneEmail
  cases hfp : checkFreeOrPaid data.check with
  | error e => rfl
  | ok free =>
    simp only [hp]
    split <;> rfl

/-- Witness for the amended C3 at a concrete failing persistence
environment. -/
theorem c3_witness : (verifyOneEmail envFail ⟨"ctx@x.io", "dana@corp.io"⟩).1 = none :=
  verifyOneEmail_persist_failure envFail ⟨"ctx@x.io", "dana@corp.io"⟩ (by decide)

/-- Records returned by `verifyOneEmail` carry the target address in
their `email` field. -/
theorem verifyOneEmail_email_field (env : Env) (data : VerifyOneDto)
    (r : EmailRecord) (h : (verifyOneEmail env data).1 = some r) :
    r.email = data.check := by
  unfold verifyOneEmail at h
  cases hfp : checkFreeOrPaid data.check with
  | error e =>
    rw [hfp] at h
    cases h
  | ok free =>
    simp only [hfp] at h
    split at h
    · split at h
      · cases h
        rfl
      · cases h
    · split at h
      · cases h
        rfl
      · cases h

/-- Unfolded behaviour of the batch loop: the result list is the map of
single verification over the targets, and the event trace processes the
targets in order with a 2000 ms sleep after each. -/
theorem verifyManyLoop_spec (env : Env) (ctx : String) (emails : List String) :
    (verifyManyLoop env ctx emails).1 =
      emails.map (fun e => (verifyOneEmail env ⟨ctx, e⟩).1) ∧
    (verifyManyLoop env ctx emails).2 =
      (emails.map
        (fun e => (verifyOneEmail env ⟨ctx, e⟩).2 ++ [Event.sleep 2000])).flatten := by
  induction emails with
  | nil => exact ⟨rfl, rfl⟩
  | cons e rest ih =>
    constructor
    · show (verifyOneEmail env ⟨ctx, e⟩).1 :: (verifyManyLoop env ctx rest).1 = _
      rw [List.map_cons, ih.1]
    · show (verifyOneEmail env ⟨ctx, e⟩).2 ++ [Event.sleep 2000]
          ++ (verifyManyLoop env ctx rest).2 = _
      rw [List.map_cons, List.flatten_cons, ih.2]

/-- Claim C7: `verifyManyEmail` returns exactly as many results as
targets, in input order — the i-th result is the single verification of
the i-th target, whose record (when produced) carries that target in its
`email` field — and its event trace handles the targets strictly one at
a time with the fixed 2000 ms sleep after each iteration. -/
theorem verifyManyEmail_order (env : Env) (data : VerifyManyDto) :
    (verifyManyEmail env data).1.length = data.emails.length ∧
    (∀ i, (hi : i < data.emails.length) →
      (verifyManyEmail env data).1[i]? =
        some (verifyOneEmail env ⟨data.email, data.emails[i]⟩).1 ∧
      ∀ r, (verifyOneEmail env ⟨data.email, data.emails[i]⟩).1 = some r →
        r.email = data.emails[i]) ∧
    (verifyManyEmail env data).2 =
      (data.emails.map
        (fun e => (verifyOneEmail env ⟨data.email, e⟩).2
          ++ [Event.sleep 2000])).flatten := by
  obtain ⟨h1, h2⟩ := verifyManyLoop_spec env data.email data.emails
  refine ⟨?_, ?_, h2⟩
  · rw [show (verifyManyEmail env data).1
        = (verifyManyLoop env data.email data.emails).1 from rfl,
      h1, List.length_map]
  · intro i hi
    constructor
    · rw [show (verifyManyEmail env data).1
          = (verifyManyLoop env data.email data.emails).1 from rfl,
        h1, List.getElem?_map, List.getElem?_eq_getElem hi]
      rfl
    · intro r hr
      exact verifyOneEmail_email_field env ⟨data.email, data.emails[i]⟩ r hr

/-- Witness for C7 at a concrete two-target batch. -/
theorem c7_witness :
    (verifyManyEmail envW ⟨"ctx@x.io", "my list", ["a@corp.io", "b@corp.io"]⟩).1.length
      = 2 ∧
    (verifyManyEmail envW ⟨"ctx@x.io", "my list", ["a@corp.io", "b@corp.io"]⟩).1[0]?
      = some (verifyOneEmail envW ⟨"ctx@x.io", "a@corp.io"⟩).1 := by
  obtain ⟨hlen, hidx, _⟩ :=
    verifyManyEmail_order envW ⟨"ctx@x.io", "my list", ["a@corp.io", "b@corp.io"]⟩
  exact ⟨hlen, (hidx 0 (by decide)).1⟩

end EmailChecker
